import Mathlib

/-!
Verification of the Retailabs message-delivery backend.

This file gives a shallow embedding of the parts of the Python source that the
testable properties of the specification talk about: the per-channel credential
caches with 24-hour expiry, phone-number validation, the Composio
response-shape success checklists, the LinkedIn action-name fallback chains,
the Slack channel-listing error classification, and the boundary-layer send
routes.  External collaborators (the Composio connector platform and the
Gemini LLM) are modelled as oracle parameters; their responses are modelled
as Python values (`PyVal`).
-/

/-- Model of a Python runtime value, as far as the services inspect them:
`None`, booleans, integers, strings, lists, dicts, and attribute-bearing
objects (the Composio response models). -/
inductive PyVal where
  | pyNone
  | pyBool (b : Bool)
  | pyInt (n : Int)
  | pyStr (s : String)
  | pyList (elems : List PyVal)
  | pyDict (entries : List (String × PyVal))
  | pyObj (attrs : List (String × PyVal))

/-- Python truthiness: `None`, `False`, `0`, `""`, `[]`, and the empty dict are
falsy; plain objects are truthy. -/
def PyVal.truthy : PyVal → Bool
  | .pyNone => false
  | .pyBool b => b
  | .pyInt n => n != 0
  | .pyStr s => s != ""
  | .pyList es => !es.isEmpty
  | .pyDict es => !es.isEmpty
  | .pyObj _ => true

/-- Model of Python `getattr(v, name, None)` restricted to data attributes:
only object values carry attributes. -/
def PyVal.getattr : PyVal → String → Option PyVal
  | .pyObj attrs, name => attrs.lookup name
  | _, _ => none

/-- Model of Python `hasattr(v, name)`. -/
def PyVal.hasattr (v : PyVal) (name : String) : Bool :=
  (v.getattr name).isSome

/-- Model of `v.get(key)` / `v[key]` for dict values (`none` when `v` is not a
dict or the key is missing, matching the None default of dict.get). -/
def PyVal.dictGet : PyVal → String → Option PyVal
  | .pyDict entries, key => entries.lookup key
  | _, _ => none

/-- Model of Python `isinstance(v, dict) and key in v`. -/
def PyVal.dictHas (v : PyVal) (key : String) : Bool :=
  (v.dictGet key).isSome

/-- Truthiness of an attribute access guarded by `hasattr`, i.e. the Python
idiom `hasattr(v, name) and v.name`. -/
def PyVal.attrTruthy (v : PyVal) (name : String) : Bool :=
  match v.getattr name with
  | some a => a.truthy
  | none => false

/-- Truthiness of `v.get(key)` for a dict, i.e. the Python idiom
`isinstance(v, dict) and v.get(key)`. -/
def PyVal.dictGetTruthy (v : PyVal) (key : String) : Bool :=
  match v.dictGet key with
  | some a => a.truthy
  | none => false

/-- Rendering of a Python value inside an f-string (`str(v)`); only the
presence of these error strings matters to the verified properties. -/
def PyVal.display : PyVal → String
  | .pyNone => "None"
  | .pyBool true => "True"
  | .pyBool false => "False"
  | .pyInt n => toString n
  | .pyStr s => s
  | .pyList _ => "[...]"
  | .pyDict _ => "\x7b...\x7d"
  | .pyObj _ => "<object>"

/-- Rendering of the Python idiom `error_message or default`: the attached
error value when it is present and truthy, the default otherwise. -/
def pyOrDefault (errorMessage : Option PyVal) (default : String) : String :=
  match errorMessage with
  | some v => if v.truthy then v.display else default
  | none => default

/-- Normalized service result dictionary `\x7bsuccess, message?, error?\x7d`
that every delivery operation returns. -/
structure SvcResult where
  success : Bool
  message : Option String
  error : Option String
deriving DecidableEq, Repr

namespace SlackService

/-- One entry of the Slack token cache: `\x7b"token": ..., "expires": ...\x7d`
with time modelled as seconds. -/
structure CacheEntry where
  token : String
  expires : Nat
deriving DecidableEq, Repr

/-- The module-level `token_cache` dict, keyed by channel id. -/
abbrev TokenCache := String → Option CacheEntry

/-- Embedding of `slack_service.store_token_for_channel`: stores the token
with a 24-hour expiration when the channel id and token are truthy and the
token is not the `"string"` placeholder; otherwise leaves the cache alone. -/
def store_token_for_channel (now : Nat) (cache : TokenCache)
    (channel_id bot_token : String) : TokenCache :=
  if channel_id ≠ "" ∧ bot_token ≠ "" ∧ bot_token ≠ "string" then
    fun k => if k = channel_id then some ⟨bot_token, now + 24 * 60 * 60⟩ else cache k
  else
    cache

/-- Embedding of `slack_service.get_token_for_channel`: returns the cached
token while `expires > now`, and evicts the entry (returning `none`) once it
has expired.  The second component is the cache after the lookup. -/
def get_token_for_channel (now : Nat) (cache : TokenCache)
    (channel_id : String) : Option String × TokenCache :=
  match cache channel_id with
  | some entry =>
      if now < entry.expires then
        (some entry.token, cache)
      else
        (none, fun k => if k = channel_id then none else cache k)
  | none => (none, cache)

end SlackService

namespace WhatsAppService

/-- One entry of the WhatsApp API-key cache:
`\x7b"api_key": ..., "expires": ...\x7d`. -/
structure ApiKeyEntry where
  api_key : String
  expires : Nat
deriving DecidableEq, Repr

/-- The module-level `api_key_cache` dict, keyed by phone number. -/
abbrev ApiKeyCache := String → Option ApiKeyEntry

/-- Embedding of `whatsapp_service.store_api_key_for_phone`. -/
def store_api_key_for_phone (now : Nat) (cache : ApiKeyCache)
    (phone_number api_key : String) : ApiKeyCache :=
  if phone_number ≠ "" ∧ api_key ≠ "" ∧ api_key ≠ "string" then
    fun k => if k = phone_number then some ⟨api_key, now + 24 * 60 * 60⟩ else cache k
  else
    cache

/-- Embedding of `whatsapp_service.get_api_key_for_phone`. -/
def get_api_key_for_phone (now : Nat) (cache : ApiKeyCache)
    (phone_number : String) : Option String × ApiKeyCache :=
  match cache phone_number with
  | some entry =>
      if now < entry.expires then
        (some entry.api_key, cache)
      else
        (none, fun k => if k = phone_number then none else cache k)
  | none => (none, cache)

/-- Embedding of `whatsapp_service.validate_phone_number`: reject the empty
string, strip every non-digit character, reject when fewer than 10 digits
remain, and otherwise return the cleaned all-digit number. -/
def validate_phone_number (phone_number : String) : Bool × String :=
  if phone_number = "" then
    (false, "Phone number cannot be empty")
  else
    let cleaned := String.mk (phone_number.toList.filter Char.isDigit)
    if cleaned.length < 10 then
      (false, "Phone number " ++ phone_number ++
        " is too short. It should include country code and at least 10 digits.")
    else
      (true, cleaned)

end WhatsAppService

namespace LinkedInService

/-- One entry of the LinkedIn token cache:
`\x7b"token": ..., "expires": ...\x7d`. -/
structure CacheEntry where
  token : String
  expires : Nat
deriving DecidableEq, Repr

/-- The module-level `token_cache` dict, keyed by entity id. -/
abbrev TokenCache := String → Option CacheEntry

/-- Embedding of `linkedin_service.store_token_for_entity`. -/
def store_token_for_entity (now : Nat) (cache : TokenCache)
    (entity_id access_token : String) : TokenCache :=
  if entity_id ≠ "" ∧ access_token ≠ "" ∧ access_token ≠ "string" then
    fun k => if k = entity_id then some ⟨access_token, now + 24 * 60 * 60⟩ else cache k
  else
    cache

/-- Embedding of `linkedin_service.get_token_for_entity`. -/
def get_token_for_entity (now : Nat) (cache : TokenCache)
    (entity_id : String) : Option String × TokenCache :=
  match cache entity_id with
  | some entry =>
      if now < entry.expires then
        (some entry.token, cache)
      else
        (none, fun k => if k = entity_id then none else cache k)
  | none => (none, cache)

end LinkedInService

/-- Embedding of the repeated error-extraction idiom: `response.error` when the
attribute exists, else the error key of the response dict when the response is a dict holding
that key, else `None`. -/
def extract_error (resp : PyVal) : Option PyVal :=
  if resp.hasattr "error" then resp.getattr "error"
  else if resp.dictHas "error" then resp.dictGet "error"
  else none

/-- Failure result built from a connector response: prefix plus the extracted
error message, or the given default when none is attached. -/
def composio_fail (resp : PyVal) (fail_label default : String) : SvcResult :=
  ⟨false, none, some (fail_label ++ pyOrDefault (extract_error resp) default)⟩

/-- Embedding of the six-step success checklist shared verbatim by the Slack,
WhatsApp and Gmail send functions: `successfull` attribute, `success`
attribute, truthy `data` attribute, then the same three as dict lookups;
only when none holds is the failure result produced. -/
def process_composio_response (resp : PyVal) (ok_message fail_label : String) : SvcResult :=
  if resp.truthy then
    if resp.attrTruthy "successfull" then ⟨true, some ok_message, none⟩
    else if resp.attrTruthy "success" then ⟨true, some ok_message, none⟩
    else if resp.attrTruthy "data" then ⟨true, some ok_message, none⟩
    else if resp.dictGetTruthy "successfull" then ⟨true, some ok_message, none⟩
    else if resp.dictGetTruthy "success" then ⟨true, some ok_message, none⟩
    else if resp.dictHas "data" && resp.dictGetTruthy "data" then ⟨true, some ok_message, none⟩
    else composio_fail resp fail_label "Unknown error in response format"
  else composio_fail resp fail_label "Unknown error in response format"

/-- Embedding of the three-step success checklist used by the LinkedIn
operations: only the attribute-style indicators `successfull`, `success` and
truthy `data` are probed; dict-shaped responses are never recognised. -/
def process_linkedin_response (resp : PyVal) (ok_message fail_label : String) : SvcResult :=
  if resp.truthy then
    if resp.attrTruthy "successfull" then ⟨true, some ok_message, none⟩
    else if resp.attrTruthy "success" then ⟨true, some ok_message, none⟩
    else if resp.attrTruthy "data" then ⟨true, some ok_message, none⟩
    else composio_fail resp fail_label "Unknown error"
  else composio_fail resp fail_label "Unknown error"

/-- Python truthiness filter on an optional string argument (`if arg:`). -/
def optTruthy : Option String → Option String
  | some s => if s = "" then none else some s
  | none => none

namespace SlackService

/-- Parameters handed to the Composio Slack send action. -/
structure SlackParams where
  channel : String
  text : String
  token : String
deriving DecidableEq, Repr

/-- Embedding of `slack_service.send_to_slack_composio`: validates the bot
token, executes the single Slack send action through the connector oracle
`exec`, and normalizes the response with the six-step checklist.  The second
component records every connector invocation (action name and parameters). -/
def send_to_slack_composio (exec : String → SlackParams → Except String PyVal)
    (message channel_id bot_token : String) :
    SvcResult × List (String × SlackParams) :=
  if bot_token = "" ∨ bot_token = "string" then
    (⟨false, none, some "A valid Slack bot token must be provided"⟩, [])
  else
    let params : SlackParams := ⟨channel_id, message, bot_token⟩
    match exec "SLACK_SENDS_A_MESSAGE_TO_A_SLACK_CHANNEL" params with
    | .ok resp =>
        (process_composio_response resp "Message successfully sent to channel"
          "Failed to send message via Composio: ",
          [("SLACK_SENDS_A_MESSAGE_TO_A_SLACK_CHANNEL", params)])
    | .error e =>
        (⟨false, none, some ("Error using Composio API: " ++ e)⟩,
          [("SLACK_SENDS_A_MESSAGE_TO_A_SLACK_CHANNEL", params)])

/-- Embedding of `slack_service.send_to_slack`: requires a channel id, then
resolves the token — a missing or placeholder token falls back to the channel
cache and fails without any connector call when the cache misses, while a
supplied valid token is stored for future use before sending. -/
def send_to_slack (now : Nat) (cache : TokenCache)
    (exec : String → SlackParams → Except String PyVal)
    (message channel_id : String) (channel_name bot_token : Option String) :
    SvcResult × TokenCache × List (String × SlackParams) :=
  if channel_id = "" then
    (⟨false, none, some "Channel ID is required"⟩, cache, [])
  else
    let fromCache :=
      match get_token_for_channel now cache channel_id with
      | (some token, cache') =>
          let sent := send_to_slack_composio exec message channel_id token
          (sent.1, cache', sent.2)
      | (none, cache') =>
          (⟨false, none, some "No valid bot token provided or found in cache. Please provide a bot token or first call the channels endpoint with a valid token."⟩,
            cache', [])
    match bot_token with
    | none => fromCache
    | some token =>
        if token = "" ∨ token = "string" then fromCache
        else
          let cache' := store_token_for_channel now cache channel_id token
          let sent := send_to_slack_composio exec message channel_id token
          (sent.1, cache', sent.2)

end SlackService

namespace WhatsAppService

/-- Parameters handed to the Composio WhatsApp actions, one shape per message
kind. -/
inductive WaParams where
  | text (to_number text : String)
  | media (to_number media_url caption : String)
  | template (to_number template_name : String) (template_params : List (String × String))
deriving DecidableEq, Repr

/-- Embedding of `whatsapp_service.send_text_to_whatsapp`: validates the
phone number, executes the WhatsApp text send action with the cleaned number,
and normalizes the response with the six-step checklist. -/
def send_text_to_whatsapp (exec : String → WaParams → Except String PyVal)
    (message phone_number : String) (api_key : Option String) (entity_id : String) :
    SvcResult × List (String × WaParams) :=
  let v := validate_phone_number phone_number
  if v.1 = false then
    (⟨false, none, some v.2⟩, [])
  else
    let params : WaParams := .text v.2 message
    match exec "WHATSAPP_SEND_MESSAGE" params with
    | .ok resp =>
        (process_composio_response resp ("Message successfully sent to " ++ phone_number)
          "Failed to send message via Composio: ", [("WHATSAPP_SEND_MESSAGE", params)])
    | .error e =>
        (⟨false, none, some ("Error using Composio API: " ++ e)⟩,
          [("WHATSAPP_SEND_MESSAGE", params)])

/-- Embedding of `whatsapp_service.send_media_to_whatsapp`. -/
def send_media_to_whatsapp (exec : String → WaParams → Except String PyVal)
    (media_url caption phone_number : String) (api_key : Option String) (entity_id : String) :
    SvcResult × List (String × WaParams) :=
  let v := validate_phone_number phone_number
  if v.1 = false then
    (⟨false, none, some v.2⟩, [])
  else
    let params : WaParams := .media v.2 media_url caption
    match exec "WHATSAPP_SEND_MEDIA" params with
    | .ok resp =>
        (process_composio_response resp ("Media successfully sent to " ++ phone_number)
          "Failed to send media via Composio: ", [("WHATSAPP_SEND_MEDIA", params)])
    | .error e =>
        (⟨false, none, some ("Error using Composio API: " ++ e)⟩,
          [("WHATSAPP_SEND_MEDIA", params)])

/-- Embedding of `whatsapp_service.send_template_to_whatsapp`. -/
def send_template_to_whatsapp (exec : String → WaParams → Except String PyVal)
    (template_name : String) (template_params : List (String × String))
    (phone_number : String) (api_key : Option String) (entity_id : String) :
    SvcResult × List (String × WaParams) :=
  let v := validate_phone_number phone_number
  if v.1 = false then
    (⟨false, none, some v.2⟩, [])
  else
    let params : WaParams := .template v.2 template_name template_params
    match exec "WHATSAPP_SEND_TEMPLATE_MESSAGE" params with
    | .ok resp =>
        (process_composio_response resp ("Template message successfully sent to " ++ phone_number)
          "Failed to send template message via Composio: ",
          [("WHATSAPP_SEND_TEMPLATE_MESSAGE", params)])
    | .error e =>
        (⟨false, none, some ("Error using Composio API: " ++ e)⟩,
          [("WHATSAPP_SEND_TEMPLATE_MESSAGE", params)])

/-- Embedding of `whatsapp_service.send_to_whatsapp`: requires a phone
number; a missing or placeholder API key falls back to the cache and, on a
cache miss, the send still proceeds with the default Composio credentials,
unlike the Slack path. -/
def send_to_whatsapp (now : Nat) (cache : ApiKeyCache)
    (exec : String → WaParams → Except String PyVal)
    (message phone_number message_type : String)
    (media_url template_name : Option String)
    (template_params : Option (List (String × String)))
    (api_key : Option String) (entity_id : String) :
    SvcResult × ApiKeyCache × List (String × WaParams) :=
  if phone_number = "" then
    (⟨false, none, some "Phone number is required"⟩, cache, [])
  else
    let resolved : Option String × ApiKeyCache :=
      if api_key = none ∨ api_key = some "" ∨ api_key = some "string" then
        get_api_key_for_phone now cache phone_number
      else
        match api_key with
        | some k => (some k, store_api_key_for_phone now cache phone_number k)
        | none => (none, cache)
    let actual_api_key := resolved.1
    let cache' := resolved.2
    if message_type = "text" then
      let sent := send_text_to_whatsapp exec message phone_number actual_api_key entity_id
      (sent.1, cache', sent.2)
    else if message_type = "media" then
      match optTruthy media_url with
      | none => (⟨false, none, some "Media URL is required for media messages"⟩, cache', [])
      | some u =>
          let sent := send_media_to_whatsapp exec u message phone_number actual_api_key entity_id
          (sent.1, cache', sent.2)
    else if message_type = "template" then
      match optTruthy template_name, template_params with
      | some tn, some tp =>
          if tp.isEmpty then
            (⟨false, none, some "Template name and parameters are required for template messages"⟩,
              cache', [])
          else
            let sent := send_template_to_whatsapp exec tn tp phone_number actual_api_key entity_id
            (sent.1, cache', sent.2)
      | _, _ =>
          (⟨false, none, some "Template name and parameters are required for template messages"⟩,
            cache', [])
    else
      (⟨false, none, some ("Invalid message type: " ++ message_type ++
        ". Must be one of: text, media, template")⟩, cache', [])

end WhatsAppService

namespace GmailService

/-- Parameters handed to the Composio Gmail send action. -/
structure GmailParams where
  recipient_email : String
  subject : String
  body : String
deriving DecidableEq, Repr

/-- Embedding of `gmail_service.send_to_gmail`: executes the Gmail send
action and normalizes the response with the six-step checklist. -/
def send_to_gmail (exec : String → GmailParams → Except String PyVal)
    (recipient_email subject message_body entity_id : String) :
    SvcResult × List (String × GmailParams) :=
  let params : GmailParams := ⟨recipient_email, subject, message_body⟩
  match exec "GMAIL_SEND_EMAIL" params with
  | .ok resp =>
      (process_composio_response resp ("Email successfully sent to " ++ recipient_email)
        "Failed to send email: ", [("GMAIL_SEND_EMAIL", params)])
  | .error e =>
      (⟨false, none, some ("Error using Composio API for Gmail: " ++ e)⟩,
        [("GMAIL_SEND_EMAIL", params)])

end GmailService

namespace LinkedInService

/-- Parameters handed to the Composio LinkedIn message actions (`profileId`,
`message`, `token`); all candidate action names receive the same value. -/
structure MessageParams where
  profileId : String
  message : String
  token : String
deriving DecidableEq, Repr

/-- Parameters handed to the Composio LinkedIn search actions. -/
structure SearchParams where
  keywords : String
  limit : Nat
  token : String
deriving DecidableEq, Repr

/-- Parameters handed to the Composio LinkedIn post actions; the optional
URLs are added only when truthy. -/
structure PostParams where
  content : String
  token : String
  imageUrl : Option String
  articleUrl : Option String
deriving DecidableEq, Repr

/-- One formatted profile produced by `search_profiles`: `id` and `name` are
mandatory attribute reads (an `AttributeError` if missing), the
other two use `getattr(..., None)`. -/
structure ProfileInfo where
  id : PyVal
  name : PyVal
  headline : Option PyVal
  url : Option PyVal

/-- Extraction of one profile record inside the `search_profiles` loop; a
missing `id` or `name` attribute raises and is caught by the outer handler. -/
def extract_profile (profile : PyVal) : Except String ProfileInfo :=
  match profile.getattr "id", profile.getattr "name" with
  | some i, some n => .ok ⟨i, n, profile.getattr "headline", profile.getattr "profileUrl"⟩
  | _, _ => .error "AttributeError"

/-- Iteration of `for profile in response.data`; a non-list `data` value
cannot be iterated into profile objects and raises. -/
def extract_profiles : PyVal → Except String (List ProfileInfo)
  | .pyList es => es.mapM extract_profile
  | _ => .error "TypeError: object is not iterable"

/-- Result dictionary of `search_profiles`. -/
structure SearchResult where
  success : Bool
  message : Option String
  error : Option String
  profiles : Option (List ProfileInfo)

/-- Embedding of `linkedin_service.search_profiles`: validates the token,
stores it in the entity cache, then tries the three candidate search action
names in order, moving to the next only when the previous raised; the last
exception, and any extraction failure, fall to the outer handler. -/
def search_profiles (now : Nat) (cache : TokenCache)
    (exec : String → SearchParams → Except String PyVal)
    (keywords access_token : String) (limit : Nat) (entity_id : String) :
    SearchResult × TokenCache × List (String × SearchParams) :=
  if access_token = "" ∨ access_token = "string" then
    (⟨false, none, some "Invalid access token provided", none⟩, cache, [])
  else
    let cache' := store_token_for_entity now cache entity_id access_token
    let params : SearchParams := ⟨keywords, limit, access_token⟩
    let process : PyVal → SearchResult := fun resp =>
      if resp.truthy && resp.attrTruthy "data" then
        match extract_profiles ((resp.getattr "data").getD .pyNone) with
        | .ok profiles =>
            ⟨true, some ("Found " ++ toString profiles.length ++ " profiles matching your search"),
              none, some profiles⟩
        | .error e =>
            ⟨false, none, some ("Error searching LinkedIn profiles: " ++ e), none⟩
      else
        ⟨false, none,
          some ("Failed to search LinkedIn profiles: " ++
            pyOrDefault (extract_error resp) "No profiles found"), none⟩
    match exec "LINKEDIN_SEARCH_FOR_PEOPLE" params with
    | .ok resp => (process resp, cache', [("LINKEDIN_SEARCH_FOR_PEOPLE", params)])
    | .error _ =>
        match exec "LINKEDIN_SEARCHES_FOR_PEOPLE" params with
        | .ok resp =>
            (process resp, cache',
              [("LINKEDIN_SEARCH_FOR_PEOPLE", params), ("LINKEDIN_SEARCHES_FOR_PEOPLE", params)])
        | .error _ =>
            match exec "LINKEDIN_SEARCHES_PROFILES" params with
            | .ok resp =>
                (process resp, cache',
                  [("LINKEDIN_SEARCH_FOR_PEOPLE", params), ("LINKEDIN_SEARCHES_FOR_PEOPLE", params),
                    ("LINKEDIN_SEARCHES_PROFILES", params)])
            | .error e =>
                (⟨false, none, some ("Error searching LinkedIn profiles: " ++ e), none⟩, cache',
                  [("LINKEDIN_SEARCH_FOR_PEOPLE", params), ("LINKEDIN_SEARCHES_FOR_PEOPLE", params),
                    ("LINKEDIN_SEARCHES_PROFILES", params)])

/-- Embedding of `linkedin_service.send_message`: validates the token, stores
it, then tries the three candidate message action names in order with the
same parameters, each exception moving to the next name; the response is
normalized with the attribute-only three-step checklist. -/
def send_message (now : Nat) (cache : TokenCache)
    (exec : String → MessageParams → Except String PyVal)
    (profile_id message access_token entity_id : String) :
    SvcResult × TokenCache × List (String × MessageParams) :=
  if access_token = "" ∨ access_token = "string" then
    (⟨false, none, some "Invalid access token provided"⟩, cache, [])
  else
    let cache' := store_token_for_entity now cache entity_id access_token
    let params : MessageParams := ⟨profile_id, message, access_token⟩
    match exec "LINKEDIN_SENDS_MESSAGE" params with
    | .ok resp =>
        (process_linkedin_response resp "Message sent successfully" "Failed to send message: ",
          cache', [("LINKEDIN_SENDS_MESSAGE", params)])
    | .error _ =>
        match exec "LINKEDIN_SENDS_A_MESSAGE" params with
        | .ok resp =>
            (process_linkedin_response resp "Message sent successfully" "Failed to send message: ",
              cache', [("LINKEDIN_SENDS_MESSAGE", params), ("LINKEDIN_SENDS_A_MESSAGE", params)])
        | .error _ =>
            match exec "LINKEDIN_MESSAGE_PROFILE" params with
            | .ok resp =>
                (process_linkedin_response resp "Message sent successfully" "Failed to send message: ",
                  cache',
                  [("LINKEDIN_SENDS_MESSAGE", params), ("LINKEDIN_SENDS_A_MESSAGE", params),
                    ("LINKEDIN_MESSAGE_PROFILE", params)])
            | .error e =>
                (⟨false, none, some ("Error sending message: " ++ e)⟩, cache',
                  [("LINKEDIN_SENDS_MESSAGE", params), ("LINKEDIN_SENDS_A_MESSAGE", params),
                    ("LINKEDIN_MESSAGE_PROFILE", params)])

/-- Result dictionary of `create_post` (`data.post_id` on the data-shaped
success branch). -/
structure CreatePostResult where
  success : Bool
  message : Option String
  error : Option String
  post_id : Option PyVal

/-- Response processing of `create_post`: the attribute-only checklist, with
the `data` branch also extracting getattr of id on response.data, defaulting to None. -/
def process_create_post_response (resp : PyVal) : CreatePostResult :=
  if resp.truthy then
    if resp.attrTruthy "successfull" then ⟨true, some "Post created successfully", none, none⟩
    else if resp.attrTruthy "success" then ⟨true, some "Post created successfully", none, none⟩
    else if resp.attrTruthy "data" then
      let d := (resp.getattr "data").getD .pyNone
      ⟨true, some "Post created successfully", none, some ((d.getattr "id").getD .pyNone)⟩
    else
      ⟨false, none,
        some ("Failed to create post: " ++ pyOrDefault (extract_error resp) "Unknown error"),
        none⟩
  else
    ⟨false, none,
      some ("Failed to create post: " ++ pyOrDefault (extract_error resp) "Unknown error"),
      none⟩

/-- Embedding of `linkedin_service.create_post`: validates and stores the
token, builds the parameters (optional URLs only when truthy), tries the
three candidate post action names in order, and normalizes with the
attribute-only checklist, the `data` branch also extracting a post id. -/
def create_post (now : Nat) (cache : TokenCache)
    (exec : String → PostParams → Except String PyVal)
    (content access_token : String) (image_url article_url : Option String)
    (entity_id : String) :
    CreatePostResult × TokenCache × List (String × PostParams) :=
  if access_token = "" ∨ access_token = "string" then
    (⟨false, none, some "Invalid access token provided", none⟩, cache, [])
  else
    let cache' := store_token_for_entity now cache entity_id access_token
    let params : PostParams := ⟨content, access_token, optTruthy image_url, optTruthy article_url⟩
    let process : PyVal → CreatePostResult := process_create_post_response
    match exec "LINKEDIN_CREATES_POST" params with
    | .ok resp => (process resp, cache', [("LINKEDIN_CREATES_POST", params)])
    | .error _ =>
        match exec "LINKEDIN_CREATES_A_POST" params with
        | .ok resp =>
            (process resp, cache',
              [("LINKEDIN_CREATES_POST", params), ("LINKEDIN_CREATES_A_POST", params)])
        | .error _ =>
            match exec "LINKEDIN_SHARE_POST" params with
            | .ok resp =>
                (process resp, cache',
                  [("LINKEDIN_CREATES_POST", params), ("LINKEDIN_CREATES_A_POST", params),
                    ("LINKEDIN_SHARE_POST", params)])
            | .error e =>
                (⟨false, none, some ("Error creating post: " ++ e), none⟩, cache',
                  [("LINKEDIN_CREATES_POST", params), ("LINKEDIN_CREATES_A_POST", params),
                    ("LINKEDIN_SHARE_POST", params)])

end LinkedInService

namespace GmailService

/-- Model of the Composio `initiate_connection` response object; a field is
`some` exactly when the Python object has that attribute. -/
structure InitConnResp where
  redirectUrl : Option String
  connectedAccountId : Option String
deriving DecidableEq, Repr

/-- Model of a connected-account object returned by
`get_connected_account`. -/
structure ConnStatus where
  status : Option String
deriving DecidableEq, Repr

/-- Result dictionary of `setup_gmail_integration`. -/
structure SetupResult where
  success : Bool
  redirect_url : Option String
  message : String
deriving DecidableEq, Repr

/-- Embedding of the body of `gmail_service.setup_gmail_integration` in an
early-return monad (`throw` is Python `return`).  The connection-status block
is transcribed exactly where it sits in the source: inside the
`redirectUrl` branch, after the `return` statement. -/
def setup_gmail_integration_body (resp : Option InitConnResp)
    (get_connected_account : String → Option ConnStatus) : Except SetupResult Unit := do
  match resp with
  | some r =>
      if r.redirectUrl.isSome then do
        throw ⟨true, r.redirectUrl,
          "Please complete Gmail authentication by opening this URL in your browser"⟩
        match r.connectedAccountId with
        | some acct =>
            match get_connected_account acct with
            | some conn =>
                if conn.status = some "ACTIVE" then
                  throw ⟨true, none, "Gmail connection is active"⟩
                else pure ()
            | none => pure ()
        | none => pure ()
      else pure ()
  | none => pure ()

/-- Embedding of `gmail_service.setup_gmail_integration`: the oracle `init`
models `initiate_connection` (its `.error` case a raised exception caught by
the outer handler); an early return delivers the result, and falling off the
end delivers the generic failure dictionary. -/
def setup_gmail_integration (init : Except String (Option InitConnResp))
    (get_connected_account : String → Option ConnStatus) : SetupResult :=
  match init with
  | .error e => ⟨false, none, "Error setting up Gmail integration: " ++ e⟩
  | .ok resp =>
      match setup_gmail_integration_body resp get_connected_account with
      | .error result => result
      | .ok () => ⟨false, none, "Failed to setup Gmail integration"⟩

end GmailService

namespace SlackService

/-- One raw channel dict taken from the Slack API JSON; a field is `some`
exactly when the key is present. -/
structure SlackChannel where
  id : Option String
  name : Option String
deriving DecidableEq, Repr

/-- Relevant content of the HTTP response from
`https://slack.com/api/conversations.list`: the status code and the parsed
JSON fields the code reads (`ok`, `error`, `channels`, with `data.get`
defaults). -/
structure SlackHttpResp where
  status_code : Nat
  ok : Bool
  error : Option String
  channels : List SlackChannel
deriving DecidableEq, Repr

/-- One `\x7bid, name\x7d` pair returned by the channel listing. -/
structure ChannelInfo where
  id : String
  name : String
deriving DecidableEq, Repr

/-- Embedding of the channel-collection loop of `get_channels`: channels
missing `id` or `name` are skipped, and the bot token is stored in the cache
for every collected channel. -/
def collect_channels (now : Nat) (bot_token : String) :
    List SlackChannel → TokenCache → List ChannelInfo × TokenCache
  | [], cache => ([], cache)
  | c :: rest, cache =>
      match c.id, c.name with
      | some i, some n =>
          let cache' := store_token_for_channel now cache i bot_token
          let r := collect_channels now bot_token rest cache'
          (⟨i, n⟩ :: r.1, r.2)
      | _, _ => collect_channels now bot_token rest cache

/-- Embedding of `slack_service.get_channels`: an empty or placeholder token
returns `[]` without any remote call; a transport error or non-200 status
returns `[]`; an `ok=false` body is classified into one of three one-element
`ERROR` lists; otherwise the channels are collected. -/
def get_channels (now : Nat) (cache : TokenCache) (bot_token : String)
    (http : Except String SlackHttpResp) : List ChannelInfo × TokenCache :=
  if bot_token = "" ∨ bot_token = "string" then ([], cache)
  else
    match http with
    | .error _ => ([], cache)
    | .ok resp =>
        if resp.status_code ≠ 200 then ([], cache)
        else if !resp.ok then
          let err := resp.error.getD "Unknown error"
          if err = "missing_scope" then
            ([⟨"ERROR", "Bot token missing required scopes: channels:read, groups:read"⟩], cache)
          else if err = "invalid_auth" ∨ err = "not_authed" then
            ([⟨"ERROR", "Invalid or expired bot token"⟩], cache)
          else
            ([⟨"ERROR", "Slack API error: " ++ err⟩], cache)
        else collect_channels now bot_token resp.channels cache

end SlackService

/-- Embedding of `settings.SLACK_CHANNELS`, the static configuration-provided
channel directory (never read by any route or service). -/
def SLACK_CHANNELS : List (String × SlackService.ChannelInfo) :=
  [("1", ⟨"C08QPUC28UA", "team-"⟩),
   ("2", ⟨"C08Q7F3TGS3", "social"⟩),
   ("3", ⟨"C08QQM6MREX", "new-channel"⟩)]

/-- Result of a FastAPI handler: either a value or a raised `HTTPException`
with a status code and detail. -/
inductive RouteResult (α : Type) where
  | ok (value : α)
  | httpError (status_code : Nat) (detail : String)
deriving DecidableEq, Repr

/-- Outcome of a Gemini generation call as the services report it:
`\x7bsuccess: true, content\x7d` or `\x7bsuccess: false, error\x7d`. -/
inductive GenResult where
  | ok (content : String)
  | err (error : String)
deriving DecidableEq, Repr

/-- Outcome of `generate_subject`. -/
inductive SubjectResult where
  | ok (subject : String)
  | err (error : String)
deriving DecidableEq, Repr

namespace SlackRoutes

/-- Embedding of the `GET /slack/channels` handler: a missing or placeholder
token raises HTTP 400; otherwise the service result is wrapped. -/
def get_channels_route (now : Nat) (cache : SlackService.TokenCache) (bot_token : String)
    (http : Except String SlackService.SlackHttpResp) :
    RouteResult (List SlackService.ChannelInfo) × SlackService.TokenCache :=
  if bot_token = "" ∨ bot_token = "string" then
    (.httpError 400 "A valid Slack bot token must be provided", cache)
  else
    let r := SlackService.get_channels now cache bot_token http
    (.ok r.1, r.2)

/-- Response model `SlackMessageResponse`. -/
structure SlackMessageResponse where
  success : Bool
  message : String
  channel_name : Option String
  message_content : Option String
  error : Option String
deriving DecidableEq, Repr

/-- Embedding of the `POST /slack/send` handler: generation failure is
reported without content; a delivery failure is reported with the generated
content and the delivery error; success echoes the content. -/
def send_message_route (now : Nat) (cache : SlackService.TokenCache)
    (exec : String → SlackService.SlackParams → Except String PyVal)
    (gen_result : GenResult) (channel_id channel_name : String)
    (bot_token : Option String) : SlackMessageResponse × SlackService.TokenCache :=
  let resolved_name := if channel_name = "" then "channel" else channel_name
  match gen_result with
  | .err e => (⟨false, "Failed to generate message", none, none, some e⟩, cache)
  | .ok message_content =>
      let sent := SlackService.send_to_slack now cache exec message_content channel_id
        (some channel_name) bot_token
      if !sent.1.success then
        (⟨false, "Failed to send message", some resolved_name, some message_content,
          some (sent.1.error.getD "Unknown error")⟩, sent.2.1)
      else
        (⟨true, "Message sent successfully to #" ++ resolved_name, some resolved_name,
          some message_content, none⟩, sent.2.1)

end SlackRoutes

namespace GmailRoutes

/-- Response model `EmailResponse`. -/
structure EmailResponse where
  success : Bool
  message : String
  email_content : Option String
  error : Option String
deriving DecidableEq, Repr

/-- Embedding of the `POST /gmail/send` handler: generation failure is
reported without content; subject generation failure falls back to the fixed
subject; a delivery failure is reported with the generated content and the
delivery error; success echoes the content. -/
def send_email_route (exec : String → GmailService.GmailParams → Except String PyVal)
    (gen_result : GenResult) (subject_result : SubjectResult)
    (recipient_email entity_id : String) : EmailResponse :=
  match gen_result with
  | .err e => ⟨false, "Failed to generate email", none, some e⟩
  | .ok email_content =>
      let subject :=
        match subject_result with
        | .ok s => s
        | .err _ => "Re: Your Request"
      let send_result := (GmailService.send_to_gmail exec recipient_email subject
        email_content entity_id).1
      if !send_result.success then
        ⟨false, "Failed to send email", some email_content,
          some (send_result.error.getD "Unknown error")⟩
      else
        ⟨true, "Email sent successfully to " ++ recipient_email, some email_content, none⟩

end GmailRoutes

namespace WhatsAppRoutes

/-- Response model `WhatsAppMessageResponse`. -/
structure WhatsAppMessageResponse where
  success : Bool
  message : String
  phone_number : Option String
  message_content : Option String
  error : Option String
deriving DecidableEq, Repr

/-- Embedding of the `POST /whatsapp/send` handler: generation failure is
reported without content; a delivery failure is reported with the generated
content and the delivery error; success echoes the content. -/
def send_message_route (now : Nat) (cache : WhatsAppService.ApiKeyCache)
    (exec : String → WhatsAppService.WaParams → Except String PyVal)
    (gen_result : GenResult) (phone_number : String) (api_key : Option String)
    (entity_id : String) : WhatsAppMessageResponse × WhatsAppService.ApiKeyCache :=
  match gen_result with
  | .err e => (⟨false, "Failed to generate message", none, none, some e⟩, cache)
  | .ok message_content =>
      let sent := WhatsAppService.send_to_whatsapp now cache exec message_content phone_number
        "text" none none none api_key entity_id
      if !sent.1.success then
        (⟨false, "Failed to send message", some phone_number, some message_content,
          some (sent.1.error.getD "Unknown error")⟩, sent.2.1)
      else
        (⟨true, "Message sent successfully to " ++ phone_number, some phone_number,
          some message_content, none⟩, sent.2.1)

end WhatsAppRoutes

/-- Disjunction of the six success indicators probed by the Slack, WhatsApp
and Gmail send checklists. -/
def composio_success_indicator (resp : PyVal) : Bool :=
  resp.attrTruthy "successfull" || resp.attrTruthy "success" || resp.attrTruthy "data" ||
  resp.dictGetTruthy "successfull" || resp.dictGetTruthy "success" ||
  (resp.dictHas "data" && resp.dictGetTruthy "data")

/-- Disjunction of the three attribute-style success indicators probed by the
LinkedIn operations. -/
def linkedin_success_indicator (resp : PyVal) : Bool :=
  resp.attrTruthy "successfull" || resp.attrTruthy "success" || resp.attrTruthy "data"

/-- A response on which any success indicator fires is truthy. -/
theorem composio_success_indicator_truthy (resp : PyVal)
    (h : composio_success_indicator resp = true) : resp.truthy = true := by
  cases resp <;>
    simp_all [composio_success_indicator, PyVal.attrTruthy, PyVal.dictGetTruthy,
      PyVal.dictHas, PyVal.getattr, PyVal.dictGet, PyVal.truthy]
  case pyDict es =>
    rcases es with _ | ⟨a, es⟩ <;> simp_all [List.lookup]

/-- The six-step checklist succeeds exactly when one of the six indicators
fires. -/
theorem process_composio_response_success (resp : PyVal) (m p : String) :
    (process_composio_response resp m p).success = composio_success_indicator resp := by
  by_cases htr : resp.truthy = true
  · unfold process_composio_response
    rw [htr]
    simp only [if_true]
    unfold composio_success_indicator
    split_ifs <;> simp_all [composio_fail]
  · have hind : composio_success_indicator resp ≠ true := fun h =>
      htr (composio_success_indicator_truthy resp h)
    unfold process_composio_response
    simp only [Bool.not_eq_true] at htr
    rw [htr]
    simp [composio_fail, Bool.eq_false_iff.mpr hind]

/-- A failing six-step checklist always attaches an error string. -/
theorem process_composio_response_error (resp : PyVal) (m p : String)
    (h : (process_composio_response resp m p).success = false) :
    (process_composio_response resp m p).error.isSome := by
  unfold process_composio_response at h ⊢
  split_ifs at h ⊢ <;> simp_all [composio_fail]

/-- The LinkedIn three-step checklist succeeds exactly when one of the three
attribute indicators fires. -/
theorem process_linkedin_response_success (resp : PyVal) (m p : String) :
    (process_linkedin_response resp m p).success = linkedin_success_indicator resp := by
  by_cases htr : resp.truthy = true
  · unfold process_linkedin_response
    rw [htr]
    simp only [if_true]
    unfold linkedin_success_indicator
    split_ifs <;> simp_all [composio_fail]
  · have hind : linkedin_success_indicator resp ≠ true := by
      intro h
      apply htr
      apply composio_success_indicator_truthy
      simp only [linkedin_success_indicator, Bool.or_eq_true] at h
      simp [composio_success_indicator, Bool.or_eq_true]
      tauto
    unfold process_linkedin_response
    simp only [Bool.not_eq_true] at htr
    rw [htr]
    simp [composio_fail, Bool.eq_false_iff.mpr hind]

/-- A failing LinkedIn checklist always attaches an error string. -/
theorem process_linkedin_response_error (resp : PyVal) (m p : String)
    (h : (process_linkedin_response resp m p).success = false) :
    (process_linkedin_response resp m p).error.isSome := by
  unfold process_linkedin_response at h ⊢
  split_ifs at h ⊢ <;> simp_all [composio_fail]

/-- Validation accepts any number with at least ten digit characters and
returns the stripped digit string. -/
theorem validate_phone_number_of_long (s : String)
    (hlong : 10 ≤ (s.toList.filter Char.isDigit).length) :
    WhatsAppService.validate_phone_number s =
      (true, String.mk (s.toList.filter Char.isDigit)) := by
  have hs : s ≠ "" := by
    intro h
    subst h
    simp at hlong
  have hlong2 : ¬ (List.filter Char.isDigit s.data).length < 10 := Nat.not_lt.mpr hlong
  simp [WhatsAppService.validate_phone_number, hs, hlong2]

/-- C1 counterexample: the claim quantifies over every channel identifier,
but for the empty identifier the store is a silent no-op, so a lookup
immediately afterwards (time 0, well inside the 24-hour window) returns
absent instead of the stored secret. -/
theorem C1_counterexample_empty_key :
    (SlackService.get_token_for_channel 0
      (SlackService.store_token_for_channel 0 (fun _ => none) "" "xoxb-secret") "").1 = none := by
  decide

/-- C1 (amended): for every non-empty channel identifier and non-empty,
non-placeholder secret, in each of the three per-channel caches, storing then
looking up strictly less than 24 hours later returns the secret, while
looking up at or after 24 hours returns absent and removes exactly that
entry. -/
theorem C1_cache_ttl (now t : Nat) (key secret : String)
    (hkey : key ≠ "") (hs1 : secret ≠ "") (hs2 : secret ≠ "string")
    (cs : SlackService.TokenCache) (cw : WhatsAppService.ApiKeyCache)
    (cl : LinkedInService.TokenCache) :
    (t < now + 24 * 60 * 60 →
      (SlackService.get_token_for_channel t
        (SlackService.store_token_for_channel now cs key secret) key).1 = some secret ∧
      (WhatsAppService.get_api_key_for_phone t
        (WhatsAppService.store_api_key_for_phone now cw key secret) key).1 = some secret ∧
      (LinkedInService.get_token_for_entity t
        (LinkedInService.store_token_for_entity now cl key secret) key).1 = some secret) ∧
    (now + 24 * 60 * 60 ≤ t →
      ((SlackService.get_token_for_channel t
          (SlackService.store_token_for_channel now cs key secret) key).1 = none ∧
        (SlackService.get_token_for_channel t
          (SlackService.store_token_for_channel now cs key secret) key).2 key = none ∧
        ∀ k, k ≠ key →
          (SlackService.get_token_for_channel t
            (SlackService.store_token_for_channel now cs key secret) key).2 k =
          SlackService.store_token_for_channel now cs key secret k) ∧
      ((WhatsAppService.get_api_key_for_phone t
          (WhatsAppService.store_api_key_for_phone now cw key secret) key).1 = none ∧
        (WhatsAppService.get_api_key_for_phone t
          (WhatsAppService.store_api_key_for_phone now cw key secret) key).2 key = none ∧
        ∀ k, k ≠ key →
          (WhatsAppService.get_api_key_for_phone t
            (WhatsAppService.store_api_key_for_phone now cw key secret) key).2 k =
          WhatsAppService.store_api_key_for_phone now cw key secret k) ∧
      ((LinkedInService.get_token_for_entity t
          (LinkedInService.store_token_for_entity now cl key secret) key).1 = none ∧
        (LinkedInService.get_token_for_entity t
          (LinkedInService.store_token_for_entity now cl key secret) key).2 key = none ∧
        ∀ k, k ≠ key →
          (LinkedInService.get_token_for_entity t
            (LinkedInService.store_token_for_entity now cl key secret) key).2 k =
          LinkedInService.store_token_for_entity now cl key secret k)) := by
  constructor
  · intro ht
    refine ⟨?_, ?_, ?_⟩ <;>
      simp [SlackService.store_token_for_channel, SlackService.get_token_for_channel,
        WhatsAppService.store_api_key_for_phone, WhatsAppService.get_api_key_for_phone,
        LinkedInService.store_token_for_entity, LinkedInService.get_token_for_entity,
        hkey, hs1, hs2, ht]
  · intro ht
    have hnt : ¬ t < now + 24 * 60 * 60 := Nat.not_lt.mpr ht
    refine ⟨⟨?_, ?_, ?_⟩, ⟨?_, ?_, ?_⟩, ⟨?_, ?_, ?_⟩⟩ <;>
      first
      | (intro k hk
         simp [SlackService.store_token_for_channel, SlackService.get_token_for_channel,
          WhatsAppService.store_api_key_for_phone, WhatsAppService.get_api_key_for_phone,
          LinkedInService.store_token_for_entity, LinkedInService.get_token_for_entity,
          hkey, hs1, hs2, hnt, hk])
      | (simp [SlackService.store_token_for_channel, SlackService.get_token_for_channel,
          WhatsAppService.store_api_key_for_phone, WhatsAppService.get_api_key_for_phone,
          LinkedInService.store_token_for_entity, LinkedInService.get_token_for_entity,
          hkey, hs1, hs2, hnt])

/-- C1 witness: a store at time 0 under key `C123` is still returned at time
10. -/
theorem C1_cache_ttl_witness :
    (SlackService.get_token_for_channel 10
      (SlackService.store_token_for_channel 0 (fun _ => none) "C123" "xoxb-tok") "C123").1 =
      some "xoxb-tok" :=
  ((C1_cache_ttl 0 10 "C123" "xoxb-tok" (by decide) (by decide) (by decide)
    (fun _ => none) (fun _ => none) (fun _ => none)).1 (by decide)).1

/-- C5: each store operation is a no-op when the secret is empty, the secret
is the `"string"` placeholder, or the key is empty; otherwise it writes the
entry for the key with expiry `now + 24h` and leaves every other key
unchanged, in all three per-channel caches. -/
theorem C5_store_contract (now : Nat) (key secret : String)
    (cs : SlackService.TokenCache) (cw : WhatsAppService.ApiKeyCache)
    (cl : LinkedInService.TokenCache) :
    ((secret = "" ∨ secret = "string" ∨ key = "") →
      SlackService.store_token_for_channel now cs key secret = cs ∧
      WhatsAppService.store_api_key_for_phone now cw key secret = cw ∧
      LinkedInService.store_token_for_entity now cl key secret = cl) ∧
    (key ≠ "" → secret ≠ "" → secret ≠ "string" →
      (SlackService.store_token_for_channel now cs key secret key =
          some ⟨secret, now + 24 * 60 * 60⟩ ∧
        ∀ k, k ≠ key → SlackService.store_token_for_channel now cs key secret k = cs k) ∧
      (WhatsAppService.store_api_key_for_phone now cw key secret key =
          some ⟨secret, now + 24 * 60 * 60⟩ ∧
        ∀ k, k ≠ key → WhatsAppService.store_api_key_for_phone now cw key secret k = cw k) ∧
      (LinkedInService.store_token_for_entity now cl key secret key =
          some ⟨secret, now + 24 * 60 * 60⟩ ∧
        ∀ k, k ≠ key → LinkedInService.store_token_for_entity now cl key secret k = cl k)) := by
  constructor
  · intro h
    have hcond : ¬ (key ≠ "" ∧ secret ≠ "" ∧ secret ≠ "string") := by
      rcases h with h | h | h <;> simp [h]
    refine ⟨?_, ?_, ?_⟩ <;>
      simp [SlackService.store_token_for_channel, WhatsAppService.store_api_key_for_phone,
        LinkedInService.store_token_for_entity, hcond]
  · intro hkey hs1 hs2
    refine ⟨⟨?_, ?_⟩, ⟨?_, ?_⟩, ⟨?_, ?_⟩⟩ <;>
      first
      | (intro k hk
         simp [SlackService.store_token_for_channel, WhatsAppService.store_api_key_for_phone,
          LinkedInService.store_token_for_entity, hkey, hs1, hs2, hk])
      | (simp [SlackService.store_token_for_channel, WhatsAppService.store_api_key_for_phone,
          LinkedInService.store_token_for_entity, hkey, hs1, hs2])

/-- C5 witness: storing the placeholder secret `"string"` leaves the cache
untouched, while a genuine secret lands with a 24-hour expiry. -/
theorem C5_store_contract_witness :
    SlackService.store_token_for_channel 7 (fun _ => none) "C9" "string" = (fun _ => none) ∧
    SlackService.store_token_for_channel 7 (fun _ => none) "C9" "tok" "C9" =
      some ⟨"tok", 7 + 24 * 60 * 60⟩ :=
  ⟨((C5_store_contract 7 "C9" "string" (fun _ => none) (fun _ => none) (fun _ => none)).1
      (Or.inr (Or.inl rfl))).1,
   (((C5_store_contract 7 "C9" "tok" (fun _ => none) (fun _ => none) (fun _ => none)).2
      (by decide) (by decide) (by decide)).1).1⟩

/-- C2: a phone number with fewer than 10 digit characters after stripping
non-digits is rejected with a non-empty error message; otherwise validation
accepts and returns the stripped number, which consists only of digit
characters and in particular contains no plus sign. -/
theorem C2_validate_phone_number (s : String) :
    ((s.toList.filter Char.isDigit).length < 10 →
      (WhatsAppService.validate_phone_number s).1 = false ∧
      (WhatsAppService.validate_phone_number s).2 ≠ "") ∧
    (10 ≤ (s.toList.filter Char.isDigit).length →
      WhatsAppService.validate_phone_number s =
        (true, String.mk (s.toList.filter Char.isDigit)) ∧
      (∀ c ∈ (WhatsAppService.validate_phone_number s).2.toList, c.isDigit) ∧
      Char.ofNat 43 ∉ (WhatsAppService.validate_phone_number s).2.toList) := by
  constructor
  · intro hshort
    by_cases hs : s = ""
    · subst hs
      refine ⟨rfl, by decide⟩
    · have hshort2 : (List.filter Char.isDigit s.data).length < 10 := hshort
      have hval : WhatsAppService.validate_phone_number s =
          (false, "Phone number " ++ s ++
            " is too short. It should include country code and at least 10 digits.") := by
        simp [WhatsAppService.validate_phone_number, hs, hshort2]
      rw [hval]
      refine ⟨rfl, ?_⟩
      intro heq
      have hlen0 := congrArg String.length heq
      rw [String.length_append, String.length_append] at hlen0
      have h1 : "Phone number ".length = 13 := rfl
      have h2 : ("" : String).length = 0 := rfl
      omega
  · intro hlong
    have hval : WhatsAppService.validate_phone_number s =
        (true, String.mk (s.toList.filter Char.isDigit)) :=
      validate_phone_number_of_long s hlong
    refine ⟨hval, ?_, ?_⟩
    · intro c hc
      rw [hval] at hc
      have hc2 : c ∈ List.filter Char.isDigit s.data := hc
      exact (List.mem_filter.mp hc2).2
    · intro hc
      rw [hval] at hc
      have hc2 : Char.ofNat 43 ∈ List.filter Char.isDigit s.data := hc
      have hdig := (List.mem_filter.mp hc2).2
      simp [Char.isDigit] at hdig

/-- C2 witness: a formatted international number validates to its digit
string. -/
theorem C2_validate_phone_number_witness :
    WhatsAppService.validate_phone_number "+1 (555) 123-4567" =
      (true, String.mk ("+1 (555) 123-4567".toList.filter Char.isDigit)) :=
  ((C2_validate_phone_number "+1 (555) 123-4567").2 (by decide)).1

/-- C7 counterexample: invoked with no bot token, the channel-listing route
raises HTTP 400 and the service returns the empty list, not the non-empty
static `SLACK_CHANNELS` directory from configuration. -/
theorem C7_counterexample_static_directory_unused :
    (SlackRoutes.get_channels_route 0 (fun _ => none) ""
        (.error "no request made")).1 =
      .httpError 400 "A valid Slack bot token must be provided" ∧
    (SlackService.get_channels 0 (fun _ => none) "" (.error "no request made")).1 = [] ∧
    ([] : List SlackService.ChannelInfo) ≠ SLACK_CHANNELS.map Prod.snd := by
  refine ⟨rfl, rfl, by decide⟩

/-- C7 (amended): when the bot token is missing (empty) or the placeholder,
the route rejects with HTTP 400 and the service returns an empty list with
the cache untouched; the static configuration directory is never consulted
(no execution path reads `SLACK_CHANNELS`). -/
theorem C7_no_token_rejected (now : Nat) (cache : SlackService.TokenCache)
    (bot_token : String) (http : Except String SlackService.SlackHttpResp)
    (h : bot_token = "" ∨ bot_token = "string") :
    (SlackRoutes.get_channels_route now cache bot_token http).1 =
      .httpError 400 "A valid Slack bot token must be provided" ∧
    SlackService.get_channels now cache bot_token http = ([], cache) := by
  constructor
  · simp [SlackRoutes.get_channels_route, h]
  · simp [SlackService.get_channels, h]

/-- C7 witness: the placeholder token `"string"` is rejected with HTTP 400. -/
theorem C7_no_token_rejected_witness :
    (SlackRoutes.get_channels_route 3 (fun _ => none) "string"
        (.error "no request made")).1 =
      .httpError 400 "A valid Slack bot token must be provided" :=
  (C7_no_token_rejected 3 (fun _ => none) "string" (.error "no request made")
    (Or.inr rfl)).1

/-- C8: with a well-formed token, a 200 response whose body carries
`ok=false` and error `invalid_auth` or `not_authed` yields exactly the
one-element `ERROR` channel list naming an invalid or expired bot token, and
leaves the cache unchanged. -/
theorem C8_invalid_auth_classification (now : Nat) (cache : SlackService.TokenCache)
    (bot_token : String) (resp : SlackService.SlackHttpResp)
    (h1 : bot_token ≠ "") (h2 : bot_token ≠ "string")
    (hstatus : resp.status_code = 200) (hok : resp.ok = false)
    (herr : resp.error = some "invalid_auth" ∨ resp.error = some "not_authed") :
    SlackService.get_channels now cache bot_token (.ok resp) =
      ([⟨"ERROR", "Invalid or expired bot token"⟩], cache) := by
  rcases herr with herr | herr <;>
    simp [SlackService.get_channels, h1, h2, hstatus, hok, herr]

/-- C8 witness: a concrete `invalid_auth` body is classified as an invalid
or expired bot token. -/
theorem C8_invalid_auth_classification_witness :
    SlackService.get_channels 0 (fun _ => none) "xoxb-bad"
        (.ok ⟨200, false, some "invalid_auth", []⟩) =
      ([⟨"ERROR", "Invalid or expired bot token"⟩], fun _ => none) :=
  C8_invalid_auth_classification 0 (fun _ => none) "xoxb-bad"
    ⟨200, false, some "invalid_auth", []⟩
    (by decide) (by decide) rfl rfl (Or.inl rfl)

/-- The body of the Gmail setup either falls through (no early return) or
returns the redirect payload; the active-connection payload written after
the `return` statement can never surface. -/
theorem setup_gmail_integration_body_cases (resp : Option GmailService.InitConnResp)
    (gca : String → Option GmailService.ConnStatus) :
    GmailService.setup_gmail_integration_body resp gca = .ok () ∨
    ∃ url, resp.bind GmailService.InitConnResp.redirectUrl = some url ∧
      GmailService.setup_gmail_integration_body resp gca =
        .error ⟨true, some url,
          "Please complete Gmail authentication by opening this URL in your browser"⟩ := by
  match resp with
  | none => exact Or.inl rfl
  | some r =>
      match hurl : r.redirectUrl with
      | none =>
          left
          simp [GmailService.setup_gmail_integration_body, hurl]
          rfl
      | some url =>
          right
          refine ⟨url, by simp [hurl], ?_⟩
          simp [GmailService.setup_gmail_integration_body, hurl]
          rfl

/-- C9: whenever the `initiate_connection` response carries a `redirectUrl`
attribute, Gmail setup returns the redirect payload immediately, and no
execution of `setup_gmail_integration` — for any response and any connected
account state, including an ACTIVE one — ever returns the
"Gmail connection is active" payload that sits after the `return`
statement. -/
theorem C9_gmail_setup_dead_code :
    (∀ (r : GmailService.InitConnResp) (gca : String → Option GmailService.ConnStatus)
      (url : String), r.redirectUrl = some url →
      GmailService.setup_gmail_integration (.ok (some r)) gca =
        ⟨true, some url,
          "Please complete Gmail authentication by opening this URL in your browser"⟩) ∧
    (∀ (init : Except String (Option GmailService.InitConnResp))
      (gca : String → Option GmailService.ConnStatus),
      (GmailService.setup_gmail_integration init gca).message ≠
        "Gmail connection is active") := by
  constructor
  · intro r gca url hurl
    rcases setup_gmail_integration_body_cases (some r) gca with hbody | ⟨u, hu, hbody⟩
    · rw [GmailService.setup_gmail_integration_body] at hbody
      simp [hurl] at hbody
      cases hbody
    · simp [hurl] at hu
      subst hu
      simp [GmailService.setup_gmail_integration, hbody]
  · intro init gca
    match init with
    | .error e =>
        simp [GmailService.setup_gmail_integration]
        intro h
        have := congrArg String.length h
        rw [String.length_append] at this
        have h1 : "Error setting up Gmail integration: ".length = 36 := rfl
        have h2 : "Gmail connection is active".length = 26 := rfl
        omega
    | .ok resp =>
        rcases setup_gmail_integration_body_cases resp gca with hbody | ⟨u, _, hbody⟩ <;>
          simp [GmailService.setup_gmail_integration, hbody]

/-- C9 witness: even when the response also carries a connected account whose
status polls as ACTIVE, the redirect payload is returned and the active
payload is not. -/
theorem C9_gmail_setup_dead_code_witness :
    GmailService.setup_gmail_integration
        (.ok (some ⟨some "https://auth.example", some "acct-1"⟩))
        (fun _ => some ⟨some "ACTIVE"⟩) =
      ⟨true, some "https://auth.example",
        "Please complete Gmail authentication by opening this URL in your browser"⟩ :=
  C9_gmail_setup_dead_code.1 ⟨some "https://auth.example", some "acct-1"⟩
    (fun _ => some ⟨some "ACTIVE"⟩) "https://auth.example" rfl

/-- C6: on each of the gmail, slack and whatsapp send routes, when message
generation succeeds but delivery fails, the route still returns the
normalized response with `success = false`, carrying both the generated
content and the delivery error message. -/
theorem C6_partial_failure_preserves_content
    (execG : String → GmailService.GmailParams → Except String PyVal)
    (execS : String → SlackService.SlackParams → Except String PyVal)
    (execW : String → WhatsAppService.WaParams → Except String PyVal)
    (subject_result : SubjectResult) (content recipient_email entity_id : String)
    (channel_id channel_name phone_number : String)
    (bot_token api_key : Option String) (nowS nowW : Nat)
    (cs : SlackService.TokenCache) (cw : WhatsAppService.ApiKeyCache) :
    ((GmailService.send_to_gmail execG recipient_email
        (match subject_result with
         | .ok s => s
         | .err _ => "Re: Your Request") content entity_id).1.success = false →
      (GmailRoutes.send_email_route execG (.ok content) subject_result
          recipient_email entity_id).success = false ∧
      (GmailRoutes.send_email_route execG (.ok content) subject_result
          recipient_email entity_id).email_content = some content ∧
      (GmailRoutes.send_email_route execG (.ok content) subject_result
          recipient_email entity_id).error =
        some ((GmailService.send_to_gmail execG recipient_email
          (match subject_result with
           | .ok s => s
           | .err _ => "Re: Your Request") content entity_id).1.error.getD "Unknown error")) ∧
    ((SlackService.send_to_slack nowS cs execS content channel_id
        (some channel_name) bot_token).1.success = false →
      (SlackRoutes.send_message_route nowS cs execS (.ok content) channel_id
          channel_name bot_token).1.success = false ∧
      (SlackRoutes.send_message_route nowS cs execS (.ok content) channel_id
          channel_name bot_token).1.message_content = some content ∧
      (SlackRoutes.send_message_route nowS cs execS (.ok content) channel_id
          channel_name bot_token).1.error =
        some ((SlackService.send_to_slack nowS cs execS content channel_id
          (some channel_name) bot_token).1.error.getD "Unknown error")) ∧
    ((WhatsAppService.send_to_whatsapp nowW cw execW content phone_number
        "text" none none none api_key entity_id).1.success = false →
      (WhatsAppRoutes.send_message_route nowW cw execW (.ok content) phone_number
          api_key entity_id).1.success = false ∧
      (WhatsAppRoutes.send_message_route nowW cw execW (.ok content) phone_number
          api_key entity_id).1.message_content = some content ∧
      (WhatsAppRoutes.send_message_route nowW cw execW (.ok content) phone_number
          api_key entity_id).1.error =
        some ((WhatsAppService.send_to_whatsapp nowW cw execW content phone_number
          "text" none none none api_key entity_id).1.error.getD "Unknown error")) := by
  refine ⟨?_, ?_, ?_⟩
  · intro h
    cases subject_result <;>
      simp_all [GmailRoutes.send_email_route]
  · intro h
    simp_all [SlackRoutes.send_message_route]
  · intro h
    simp_all [WhatsAppRoutes.send_message_route]

/-- C6 witness: with a raising connector and a failing subject generation,
the gmail send route reports the failure but still carries the generated
body. -/
theorem C6_partial_failure_preserves_content_witness :
    (GmailRoutes.send_email_route (fun _ _ => .error "boom") (.ok "Hello body")
        (.err "subject failed") "to@example.com" "default").success = false ∧
    (GmailRoutes.send_email_route (fun _ _ => .error "boom") (.ok "Hello body")
        (.err "subject failed") "to@example.com" "default").email_content =
      some "Hello body" ∧
    (GmailRoutes.send_email_route (fun _ _ => .error "boom") (.ok "Hello body")
        (.err "subject failed") "to@example.com" "default").error =
      some ((GmailService.send_to_gmail (fun _ _ => .error "boom") "to@example.com"
        "Re: Your Request" "Hello body" "default").1.error.getD "Unknown error") :=
  (C6_partial_failure_preserves_content (fun _ _ => .error "boom")
    (fun _ _ => .error "boom") (fun _ _ => .error "boom")
    (.err "subject failed") "Hello body" "to@example.com" "default"
    "C1" "general" "15551234567" none none 0 0
    (fun _ => none) (fun _ => none)).1 rfl

/-- C10: with an absent or placeholder credential and a cold cache, the Slack
send fails with an explanatory error and never invokes the connector
(empty invocation trace), while the WhatsApp text send in the same situation
proceeds to invoke the connector with the default Composio credentials. -/
theorem C10_slack_fails_whatsapp_proceeds (now : Nat)
    (cs : SlackService.TokenCache) (cw : WhatsAppService.ApiKeyCache)
    (execS : String → SlackService.SlackParams → Except String PyVal)
    (execW : String → WhatsAppService.WaParams → Except String PyVal)
    (message channel_id phone_number : String) (channel_name : Option String)
    (bot_token api_key : Option String) (entity_id : String)
    (hch : channel_id ≠ "")
    (htok : bot_token = none ∨ bot_token = some "string")
    (hmiss : (SlackService.get_token_for_channel now cs channel_id).1 = none)
    (hkey : api_key = none ∨ api_key = some "string")
    (hwmiss : (WhatsAppService.get_api_key_for_phone now cw phone_number).1 = none)
    (hphone : 10 ≤ (phone_number.toList.filter Char.isDigit).length) :
    ((SlackService.send_to_slack now cs execS message channel_id channel_name
        bot_token).1.success = false ∧
      (SlackService.send_to_slack now cs execS message channel_id channel_name
        bot_token).1.error =
        some "No valid bot token provided or found in cache. Please provide a bot token or first call the channels endpoint with a valid token." ∧
      (SlackService.send_to_slack now cs execS message channel_id channel_name
        bot_token).2.2 = []) ∧
    (WhatsAppService.send_to_whatsapp now cw execW message phone_number "text"
        none none none api_key entity_id).2.2 =
      [("WHATSAPP_SEND_MESSAGE",
        .text (String.mk (phone_number.toList.filter Char.isDigit)) message)] := by
  constructor
  · have hcase : ∀ x, SlackService.get_token_for_channel now cs channel_id = x →
        x.1 = none →
        (SlackService.send_to_slack now cs execS message channel_id channel_name
            bot_token).1.success = false ∧
        (SlackService.send_to_slack now cs execS message channel_id channel_name
            bot_token).1.error =
          some "No valid bot token provided or found in cache. Please provide a bot token or first call the channels endpoint with a valid token." ∧
        (SlackService.send_to_slack now cs execS message channel_id channel_name
            bot_token).2.2 = [] := by
      rintro ⟨o, c⟩ hget ho
      subst ho
      rcases htok with htok | htok <;>
        subst htok <;>
        simp [SlackService.send_to_slack, hch, hget]
    exact hcase _ rfl hmiss
  · have hphone_ne : phone_number ≠ "" := by
      intro h
      subst h
      simp at hphone
    have hvalid : WhatsAppService.validate_phone_number phone_number =
        (true, String.mk (phone_number.toList.filter Char.isDigit)) :=
      validate_phone_number_of_long phone_number hphone
    have hcase : ∀ x, WhatsAppService.get_api_key_for_phone now cw phone_number = x →
        x.1 = none →
        (WhatsAppService.send_to_whatsapp now cw execW message phone_number "text"
            none none none api_key entity_id).2.2 =
          [("WHATSAPP_SEND_MESSAGE",
            .text (String.mk (phone_number.toList.filter Char.isDigit)) message)] := by
      rintro ⟨o, c⟩ hget ho
      subst ho
      rcases hkey with hkey | hkey <;>
        subst hkey <;>
        (simp only [WhatsAppService.send_to_whatsapp, hphone_ne, hget,
          WhatsAppService.send_text_to_whatsapp, hvalid]
         rcases hx : execW "WHATSAPP_SEND_MESSAGE"
            (.text (String.mk (phone_number.toList.filter Char.isDigit)) message)
            with e | r <;>
           simp [hx])
    exact hcase _ rfl hwmiss

/-- C10 witness: concrete cold-cache sends with placeholder credentials. -/
theorem C10_slack_fails_whatsapp_proceeds_witness :
    (SlackService.send_to_slack 0 (fun _ => none) (fun _ _ => .error "nope")
        "hi" "C1" none (some "string")).1.success = false ∧
    (WhatsAppService.send_to_whatsapp 0 (fun _ => none) (fun _ _ => .error "nope")
        "hi" "15551234567" "text" none none none (some "string") "default").2.2 =
      [("WHATSAPP_SEND_MESSAGE", .text "15551234567" "hi")] := by
  have h := C10_slack_fails_whatsapp_proceeds 0 (fun _ => none) (fun _ => none)
    (fun _ _ => .error "nope") (fun _ _ => .error "nope") "hi" "C1" "15551234567"
    none (some "string") (some "string") "default"
    (by decide) (Or.inr rfl) rfl (Or.inr rfl) rfl (by decide)
  exact ⟨h.1.1, h.2⟩

/-- C3 counterexample: the claim says a failure result is returned only after
every candidate name is exhausted, but when the very first action name
executes without raising and returns a response carrying no success
indicator, `send_message` returns a failure having attempted only one of the
three names. -/
theorem C3_counterexample_early_failure :
    (LinkedInService.send_message 0 (fun _ => none)
        (fun _ _ => .ok (.pyObj [])) "pid" "hello" "tok-1" "default").1.success = false ∧
    (LinkedInService.send_message 0 (fun _ => none)
        (fun _ _ => .ok (.pyObj [])) "pid" "hello" "tok-1" "default").2.2 =
      [("LINKEDIN_SENDS_MESSAGE", ⟨"pid", "hello", "tok-1"⟩)] := by
  constructor
  · rfl
  · rfl

/-- C3 (amended): for each LinkedIn operation (message send, profile search,
post creation) with a valid token, the 2-3 candidate action names are tried
in their fixed order, all with identical parameters; a raised exception moves
to the next name, a normal return stops the chain, no name is ever attempted
twice, and the exception-driven failure arises only once all three candidates
have raised — though the operation may also return a failure without
exhausting the list when the response of an executed action carries no success
indicator. -/
theorem C3_fallback_chain (now : Nat) (cl : LinkedInService.TokenCache)
    (execM : String → LinkedInService.MessageParams → Except String PyVal)
    (execS : String → LinkedInService.SearchParams → Except String PyVal)
    (execP : String → LinkedInService.PostParams → Except String PyVal)
    (profile_id message keywords content access_token entity_id : String)
    (limit : Nat) (image_url article_url : Option String)
    (h1 : access_token ≠ "") (h2 : access_token ≠ "string") :
    ((∀ resp, execM "LINKEDIN_SENDS_MESSAGE" ⟨profile_id, message, access_token⟩ = .ok resp →
        (LinkedInService.send_message now cl execM profile_id message access_token
          entity_id).2.2 =
          [("LINKEDIN_SENDS_MESSAGE", ⟨profile_id, message, access_token⟩)]) ∧
      (∀ e1 resp, execM "LINKEDIN_SENDS_MESSAGE" ⟨profile_id, message, access_token⟩ = .error e1 →
        execM "LINKEDIN_SENDS_A_MESSAGE" ⟨profile_id, message, access_token⟩ = .ok resp →
        (LinkedInService.send_message now cl execM profile_id message access_token
          entity_id).2.2 =
          [("LINKEDIN_SENDS_MESSAGE", ⟨profile_id, message, access_token⟩),
           ("LINKEDIN_SENDS_A_MESSAGE", ⟨profile_id, message, access_token⟩)]) ∧
      (∀ e1 e2 resp, execM "LINKEDIN_SENDS_MESSAGE" ⟨profile_id, message, access_token⟩ = .error e1 →
        execM "LINKEDIN_SENDS_A_MESSAGE" ⟨profile_id, message, access_token⟩ = .error e2 →
        execM "LINKEDIN_MESSAGE_PROFILE" ⟨profile_id, message, access_token⟩ = .ok resp →
        (LinkedInService.send_message now cl execM profile_id message access_token
          entity_id).2.2 =
          [("LINKEDIN_SENDS_MESSAGE", ⟨profile_id, message, access_token⟩),
           ("LINKEDIN_SENDS_A_MESSAGE", ⟨profile_id, message, access_token⟩),
           ("LINKEDIN_MESSAGE_PROFILE", ⟨profile_id, message, access_token⟩)]) ∧
      (∀ e1 e2 e3, execM "LINKEDIN_SENDS_MESSAGE" ⟨profile_id, message, access_token⟩ = .error e1 →
        execM "LINKEDIN_SENDS_A_MESSAGE" ⟨profile_id, message, access_token⟩ = .error e2 →
        execM "LINKEDIN_MESSAGE_PROFILE" ⟨profile_id, message, access_token⟩ = .error e3 →
        (LinkedInService.send_message now cl execM profile_id message access_token
          entity_id).1.success = false ∧
        (LinkedInService.send_message now cl execM profile_id message access_token
          entity_id).2.2 =
          [("LINKEDIN_SENDS_MESSAGE", ⟨profile_id, message, access_token⟩),
           ("LINKEDIN_SENDS_A_MESSAGE", ⟨profile_id, message, access_token⟩),
           ("LINKEDIN_MESSAGE_PROFILE", ⟨profile_id, message, access_token⟩)]) ∧
      (((LinkedInService.send_message now cl execM profile_id message access_token
          entity_id).2.2.map Prod.fst).Nodup) ∧
      (∀ q ∈ (LinkedInService.send_message now cl execM profile_id message access_token
          entity_id).2.2, q.2 = (⟨profile_id, message, access_token⟩ :
            LinkedInService.MessageParams))) ∧
    ((∀ resp, execS "LINKEDIN_SEARCH_FOR_PEOPLE" ⟨keywords, limit, access_token⟩ = .ok resp →
        (LinkedInService.search_profiles now cl execS keywords access_token limit
          entity_id).2.2 =
          [("LINKEDIN_SEARCH_FOR_PEOPLE", ⟨keywords, limit, access_token⟩)]) ∧
      (∀ e1 resp, execS "LINKEDIN_SEARCH_FOR_PEOPLE" ⟨keywords, limit, access_token⟩ = .error e1 →
        execS "LINKEDIN_SEARCHES_FOR_PEOPLE" ⟨keywords, limit, access_token⟩ = .ok resp →
        (LinkedInService.search_profiles now cl execS keywords access_token limit
          entity_id).2.2 =
          [("LINKEDIN_SEARCH_FOR_PEOPLE", ⟨keywords, limit, access_token⟩),
           ("LINKEDIN_SEARCHES_FOR_PEOPLE", ⟨keywords, limit, access_token⟩)]) ∧
      (∀ e1 e2 resp, execS "LINKEDIN_SEARCH_FOR_PEOPLE" ⟨keywords, limit, access_token⟩ = .error e1 →
        execS "LINKEDIN_SEARCHES_FOR_PEOPLE" ⟨keywords, limit, access_token⟩ = .error e2 →
        execS "LINKEDIN_SEARCHES_PROFILES" ⟨keywords, limit, access_token⟩ = .ok resp →
        (LinkedInService.search_profiles now cl execS keywords access_token limit
          entity_id).2.2 =
          [("LINKEDIN_SEARCH_FOR_PEOPLE", ⟨keywords, limit, access_token⟩),
           ("LINKEDIN_SEARCHES_FOR_PEOPLE", ⟨keywords, limit, access_token⟩),
           ("LINKEDIN_SEARCHES_PROFILES", ⟨keywords, limit, access_token⟩)]) ∧
      (∀ e1 e2 e3, execS "LINKEDIN_SEARCH_FOR_PEOPLE" ⟨keywords, limit, access_token⟩ = .error e1 →
        execS "LINKEDIN_SEARCHES_FOR_PEOPLE" ⟨keywords, limit, access_token⟩ = .error e2 →
        execS "LINKEDIN_SEARCHES_PROFILES" ⟨keywords, limit, access_token⟩ = .error e3 →
        (LinkedInService.search_profiles now cl execS keywords access_token limit
          entity_id).1.success = false ∧
        (LinkedInService.search_profiles now cl execS keywords access_token limit
          entity_id).2.2 =
          [("LINKEDIN_SEARCH_FOR_PEOPLE", ⟨keywords, limit, access_token⟩),
           ("LINKEDIN_SEARCHES_FOR_PEOPLE", ⟨keywords, limit, access_token⟩),
           ("LINKEDIN_SEARCHES_PROFILES", ⟨keywords, limit, access_token⟩)]) ∧
      (((LinkedInService.search_profiles now cl execS keywords access_token limit
          entity_id).2.2.map Prod.fst).Nodup) ∧
      (∀ q ∈ (LinkedInService.search_profiles now cl execS keywords access_token limit
          entity_id).2.2, q.2 = (⟨keywords, limit, access_token⟩ :
            LinkedInService.SearchParams))) ∧
    ((∀ resp, execP "LINKEDIN_CREATES_POST"
          ⟨content, access_token, optTruthy image_url, optTruthy article_url⟩ = .ok resp →
        (LinkedInService.create_post now cl execP content access_token image_url
          article_url entity_id).2.2 =
          [("LINKEDIN_CREATES_POST",
            ⟨content, access_token, optTruthy image_url, optTruthy article_url⟩)]) ∧
      (∀ e1 resp, execP "LINKEDIN_CREATES_POST"
          ⟨content, access_token, optTruthy image_url, optTruthy article_url⟩ = .error e1 →
        execP "LINKEDIN_CREATES_A_POST"
          ⟨content, access_token, optTruthy image_url, optTruthy article_url⟩ = .ok resp →
        (LinkedInService.create_post now cl execP content access_token image_url
          article_url entity_id).2.2 =
          [("LINKEDIN_CREATES_POST",
            ⟨content, access_token, optTruthy image_url, optTruthy article_url⟩),
           ("LINKEDIN_CREATES_A_POST",
            ⟨content, access_token, optTruthy image_url, optTruthy article_url⟩)]) ∧
      (∀ e1 e2 resp, execP "LINKEDIN_CREATES_POST"
          ⟨content, access_token, optTruthy image_url, optTruthy article_url⟩ = .error e1 →
        execP "LINKEDIN_CREATES_A_POST"
          ⟨content, access_token, optTruthy image_url, optTruthy article_url⟩ = .error e2 →
        execP "LINKEDIN_SHARE_POST"
          ⟨content, access_token, optTruthy image_url, optTruthy article_url⟩ = .ok resp →
        (LinkedInService.create_post now cl execP content access_token image_url
          article_url entity_id).2.2 =
          [("LINKEDIN_CREATES_POST",
            ⟨content, access_token, optTruthy image_url, optTruthy article_url⟩),
           ("LINKEDIN_CREATES_A_POST",
            ⟨content, access_token, optTruthy image_url, optTruthy article_url⟩),
           ("LINKEDIN_SHARE_POST",
            ⟨content, access_token, optTruthy image_url, optTruthy article_url⟩)]) ∧
      (∀ e1 e2 e3, execP "LINKEDIN_CREATES_POST"
          ⟨content, access_token, optTruthy image_url, optTruthy article_url⟩ = .error e1 →
        execP "LINKEDIN_CREATES_A_POST"
          ⟨content, access_token, optTruthy image_url, optTruthy article_url⟩ = .error e2 →
        execP "LINKEDIN_SHARE_POST"
          ⟨content, access_token, optTruthy image_url, optTruthy article_url⟩ = .error e3 →
        (LinkedInService.create_post now cl execP content access_token image_url
          article_url entity_id).1.success = false ∧
        (LinkedInService.create_post now cl execP content access_token image_url
          article_url entity_id).2.2 =
          [("LINKEDIN_CREATES_POST",
            ⟨content, access_token, optTruthy image_url, optTruthy article_url⟩),
           ("LINKEDIN_CREATES_A_POST",
            ⟨content, access_token, optTruthy image_url, optTruthy article_url⟩),
           ("LINKEDIN_SHARE_POST",
            ⟨content, access_token, optTruthy image_url, optTruthy article_url⟩)]) ∧
      (((LinkedInService.create_post now cl execP content access_token image_url
          article_url entity_id).2.2.map Prod.fst).Nodup) ∧
      (∀ q ∈ (LinkedInService.create_post now cl execP content access_token image_url
          article_url entity_id).2.2, q.2 = (⟨content, access_token, optTruthy image_url,
            optTruthy article_url⟩ : LinkedInService.PostParams))) := by
  refine ⟨⟨?_, ?_, ?_, ?_, ?_, ?_⟩, ⟨?_, ?_, ?_, ?_, ?_, ?_⟩, ⟨?_, ?_, ?_, ?_, ?_, ?_⟩⟩
  · intro resp hok
    simp [LinkedInService.send_message, h1, h2, hok]
  · intro e1 resp he1 hok
    simp [LinkedInService.send_message, h1, h2, he1, hok]
  · intro e1 e2 resp he1 he2 hok
    simp [LinkedInService.send_message, h1, h2, he1, he2, hok]
  · intro e1 e2 e3 he1 he2 he3
    simp [LinkedInService.send_message, h1, h2, he1, he2, he3]
  · rcases hm1 : execM "LINKEDIN_SENDS_MESSAGE" ⟨profile_id, message, access_token⟩ with e1 | r1
    · rcases hm2 : execM "LINKEDIN_SENDS_A_MESSAGE" ⟨profile_id, message, access_token⟩ with e2 | r2
      · rcases hm3 : execM "LINKEDIN_MESSAGE_PROFILE" ⟨profile_id, message, access_token⟩ with e3 | r3 <;>
          simp [LinkedInService.send_message, h1, h2, hm1, hm2, hm3]
      · simp [LinkedInService.send_message, h1, h2, hm1, hm2]
    · simp [LinkedInService.send_message, h1, h2, hm1]
  · intro q hq
    rcases hm1 : execM "LINKEDIN_SENDS_MESSAGE" ⟨profile_id, message, access_token⟩ with e1 | r1
    · rcases hm2 : execM "LINKEDIN_SENDS_A_MESSAGE" ⟨profile_id, message, access_token⟩ with e2 | r2
      · rcases hm3 : execM "LINKEDIN_MESSAGE_PROFILE" ⟨profile_id, message, access_token⟩ with e3 | r3 <;>
          (simp [LinkedInService.send_message, h1, h2, hm1, hm2, hm3] at hq
           rcases hq with rfl | rfl | rfl <;> rfl)
      · simp [LinkedInService.send_message, h1, h2, hm1, hm2] at hq
        rcases hq with rfl | rfl <;> rfl
    · simp [LinkedInService.send_message, h1, h2, hm1] at hq
      subst hq
      rfl
  · intro resp hok
    simp [LinkedInService.search_profiles, h1, h2, hok]
  · intro e1 resp he1 hok
    simp [LinkedInService.search_profiles, h1, h2, he1, hok]
  · intro e1 e2 resp he1 he2 hok
    simp [LinkedInService.search_profiles, h1, h2, he1, he2, hok]
  · intro e1 e2 e3 he1 he2 he3
    simp [LinkedInService.search_profiles, h1, h2, he1, he2, he3]
  · rcases hs1 : execS "LINKEDIN_SEARCH_FOR_PEOPLE" ⟨keywords, limit, access_token⟩ with e1 | r1
    · rcases hs2 : execS "LINKEDIN_SEARCHES_FOR_PEOPLE" ⟨keywords, limit, access_token⟩ with e2 | r2
      · rcases hs3 : execS "LINKEDIN_SEARCHES_PROFILES" ⟨keywords, limit, access_token⟩ with e3 | r3 <;>
          simp [LinkedInService.search_profiles, h1, h2, hs1, hs2, hs3]
      · simp [LinkedInService.search_profiles, h1, h2, hs1, hs2]
    · simp [LinkedInService.search_profiles, h1, h2, hs1]
  · intro q hq
    rcases hs1 : execS "LINKEDIN_SEARCH_FOR_PEOPLE" ⟨keywords, limit, access_token⟩ with e1 | r1
    · rcases hs2 : execS "LINKEDIN_SEARCHES_FOR_PEOPLE" ⟨keywords, limit, access_token⟩ with e2 | r2
      · rcases hs3 : execS "LINKEDIN_SEARCHES_PROFILES" ⟨keywords, limit, access_token⟩ with e3 | r3 <;>
          (simp [LinkedInService.search_profiles, h1, h2, hs1, hs2, hs3] at hq
           rcases hq with rfl | rfl | rfl <;> rfl)
      · simp [LinkedInService.search_profiles, h1, h2, hs1, hs2] at hq
        rcases hq with rfl | rfl <;> rfl
    · simp [LinkedInService.search_profiles, h1, h2, hs1] at hq
      subst hq
      rfl
  · intro resp hok
    simp [LinkedInService.create_post, h1, h2, hok]
  · intro e1 resp he1 hok
    simp [LinkedInService.create_post, h1, h2, he1, hok]
  · intro e1 e2 resp he1 he2 hok
    simp [LinkedInService.create_post, h1, h2, he1, he2, hok]
  · intro e1 e2 e3 he1 he2 he3
    simp [LinkedInService.create_post, h1, h2, he1, he2, he3]
  · rcases hp1 : execP "LINKEDIN_CREATES_POST"
        ⟨content, access_token, optTruthy image_url, optTruthy article_url⟩ with e1 | r1
    · rcases hp2 : execP "LINKEDIN_CREATES_A_POST"
          ⟨content, access_token, optTruthy image_url, optTruthy article_url⟩ with e2 | r2
      · rcases hp3 : execP "LINKEDIN_SHARE_POST"
            ⟨content, access_token, optTruthy image_url, optTruthy article_url⟩ with e3 | r3 <;>
          simp [LinkedInService.create_post, h1, h2, hp1, hp2, hp3]
      · simp [LinkedInService.create_post, h1, h2, hp1, hp2]
    · simp [LinkedInService.create_post, h1, h2, hp1]
  · intro q hq
    rcases hp1 : execP "LINKEDIN_CREATES_POST"
        ⟨content, access_token, optTruthy image_url, optTruthy article_url⟩ with e1 | r1
    · rcases hp2 : execP "LINKEDIN_CREATES_A_POST"
          ⟨content, access_token, optTruthy image_url, optTruthy article_url⟩ with e2 | r2
      · rcases hp3 : execP "LINKEDIN_SHARE_POST"
            ⟨content, access_token, optTruthy image_url, optTruthy article_url⟩ with e3 | r3 <;>
          (simp [LinkedInService.create_post, h1, h2, hp1, hp2, hp3] at hq
           rcases hq with rfl | rfl | rfl <;> rfl)
      · simp [LinkedInService.create_post, h1, h2, hp1, hp2] at hq
        rcases hq with rfl | rfl <;> rfl
    · simp [LinkedInService.create_post, h1, h2, hp1] at hq
      subst hq
      rfl

/-- C3 witness: with the first message action name raising and the second
succeeding, exactly the first two names are attempted, in order, with the
same parameters. -/
theorem C3_fallback_chain_witness :
    (LinkedInService.send_message 0 (fun _ => none)
        (fun name _ => if name = "LINKEDIN_SENDS_MESSAGE" then .error "no such action"
          else .ok (.pyObj [("successfull", .pyBool true)]))
        "pid" "hello" "tok-1" "default").2.2 =
      [("LINKEDIN_SENDS_MESSAGE", ⟨"pid", "hello", "tok-1"⟩),
       ("LINKEDIN_SENDS_A_MESSAGE", ⟨"pid", "hello", "tok-1"⟩)] :=
  (C3_fallback_chain 0 (fun _ => none)
    (fun name _ => if name = "LINKEDIN_SENDS_MESSAGE" then .error "no such action"
      else .ok (.pyObj [("successfull", .pyBool true)]))
    (fun _ _ => .error "unused") (fun _ _ => .error "unused")
    "pid" "hello" "kw" "post" "tok-1" "default" 10 none none
    (by decide) (by decide)).1.2.1 "no such action"
    (.pyObj [("successfull", .pyBool true)]) rfl rfl

/-- The create-post checklist succeeds exactly when one of the three
attribute indicators fires. -/
theorem LinkedInService.process_create_post_response_success (resp : PyVal) :
    (LinkedInService.process_create_post_response resp).success = linkedin_success_indicator resp := by
  by_cases htr : resp.truthy = true
  · unfold LinkedInService.process_create_post_response
    rw [htr]
    simp only [if_true]
    unfold linkedin_success_indicator
    split_ifs <;> simp_all
  · have hind : linkedin_success_indicator resp ≠ true := by
      intro h
      apply htr
      apply composio_success_indicator_truthy
      simp only [linkedin_success_indicator, Bool.or_eq_true] at h
      simp [composio_success_indicator, Bool.or_eq_true]
      tauto
    unfold LinkedInService.process_create_post_response
    simp only [Bool.not_eq_true] at htr
    rw [htr]
    simp [Bool.eq_false_iff.mpr hind]

/-- A failing create-post checklist always attaches an error string. -/
theorem LinkedInService.process_create_post_response_error (resp : PyVal)
    (h : (LinkedInService.process_create_post_response resp).success = false) :
    (LinkedInService.process_create_post_response resp).error.isSome := by
  unfold LinkedInService.process_create_post_response at h ⊢
  split_ifs at h ⊢ <;> simp_all

/-- C4 counterexample: on a dict-shaped response whose `successfull` entry is
set — an indicator of the claimed shared checklist — the WhatsApp send
reports success, but the LinkedIn send, which probes only attribute-style
indicators, reports failure, so the LinkedIn send operations do not walk the
claimed four-or-more-shape checklist. -/
theorem C4_counterexample_dict_response :
    composio_success_indicator (PyVal.pyDict [("successfull", .pyBool true)]) = true ∧
    (WhatsAppService.send_text_to_whatsapp
        (fun _ _ => .ok (.pyDict [("successfull", .pyBool true)]))
        "hi" "15551234567" none "default").1.success = true ∧
    (LinkedInService.send_message 0 (fun _ => none)
        (fun _ _ => .ok (.pyDict [("successfull", .pyBool true)]))
        "pid" "hi" "tok-1" "default").1.success = false := by
  refine ⟨rfl, rfl, rfl⟩

/-- C4 (amended): given any connector response, the WhatsApp, Gmail and Slack
send operations return success exactly when one of the six indicators of the
shared checklist fires (three attribute shapes and the same three as dict
keys), and attach an error message whenever none does; the LinkedIn send
operations (message send and post creation) instead probe only the three
attribute-style indicators, likewise attaching an error when none fires. -/
theorem C4_success_checklist (resp : PyVal) (now : Nat)
    (cl : LinkedInService.TokenCache)
    (message phone_number channel_id bot_token recipient_email subject content
      profile_id access_token entity_id : String)
    (image_url article_url : Option String)
    (hphone : 10 ≤ (phone_number.toList.filter Char.isDigit).length)
    (hbt1 : bot_token ≠ "") (hbt2 : bot_token ≠ "string")
    (hat1 : access_token ≠ "") (hat2 : access_token ≠ "string") :
    ((WhatsAppService.send_text_to_whatsapp (fun _ _ => .ok resp) message phone_number
        none entity_id).1.success = composio_success_indicator resp ∧
      ((WhatsAppService.send_text_to_whatsapp (fun _ _ => .ok resp) message phone_number
        none entity_id).1.success = false →
        (WhatsAppService.send_text_to_whatsapp (fun _ _ => .ok resp) message phone_number
          none entity_id).1.error.isSome)) ∧
    ((GmailService.send_to_gmail (fun _ _ => .ok resp) recipient_email subject content
        entity_id).1.success = composio_success_indicator resp ∧
      ((GmailService.send_to_gmail (fun _ _ => .ok resp) recipient_email subject content
        entity_id).1.success = false →
        (GmailService.send_to_gmail (fun _ _ => .ok resp) recipient_email subject content
          entity_id).1.error.isSome)) ∧
    ((SlackService.send_to_slack_composio (fun _ _ => .ok resp) message channel_id
        bot_token).1.success = composio_success_indicator resp ∧
      ((SlackService.send_to_slack_composio (fun _ _ => .ok resp) message channel_id
        bot_token).1.success = false →
        (SlackService.send_to_slack_composio (fun _ _ => .ok resp) message channel_id
          bot_token).1.error.isSome)) ∧
    ((LinkedInService.send_message now cl (fun _ _ => .ok resp) profile_id message
        access_token entity_id).1.success = linkedin_success_indicator resp ∧
      ((LinkedInService.send_message now cl (fun _ _ => .ok resp) profile_id message
        access_token entity_id).1.success = false →
        (LinkedInService.send_message now cl (fun _ _ => .ok resp) profile_id message
          access_token entity_id).1.error.isSome)) ∧
    ((LinkedInService.create_post now cl (fun _ _ => .ok resp) content access_token
        image_url article_url entity_id).1.success = linkedin_success_indicator resp ∧
      ((LinkedInService.create_post now cl (fun _ _ => .ok resp) content access_token
        image_url article_url entity_id).1.success = false →
        (LinkedInService.create_post now cl (fun _ _ => .ok resp) content access_token
          image_url article_url entity_id).1.error.isSome)) := by
  have hw : (WhatsAppService.send_text_to_whatsapp (fun _ _ => .ok resp) message
      phone_number none entity_id).1 =
      process_composio_response resp ("Message successfully sent to " ++ phone_number)
        "Failed to send message via Composio: " := by
    simp [WhatsAppService.send_text_to_whatsapp,
      validate_phone_number_of_long phone_number hphone]
  have hg : (GmailService.send_to_gmail (fun _ _ => .ok resp) recipient_email subject
      content entity_id).1 =
      process_composio_response resp ("Email successfully sent to " ++ recipient_email)
        "Failed to send email: " := by
    simp [GmailService.send_to_gmail]
  have hsl : (SlackService.send_to_slack_composio (fun _ _ => .ok resp) message channel_id
      bot_token).1 =
      process_composio_response resp "Message successfully sent to channel"
        "Failed to send message via Composio: " := by
    simp [SlackService.send_to_slack_composio, hbt1, hbt2]
  have hm : (LinkedInService.send_message now cl (fun _ _ => .ok resp) profile_id message
      access_token entity_id).1 =
      process_linkedin_response resp "Message sent successfully"
        "Failed to send message: " := by
    simp [LinkedInService.send_message, hat1, hat2]
  have hc : (LinkedInService.create_post now cl (fun _ _ => .ok resp) content access_token
      image_url article_url entity_id).1 = LinkedInService.process_create_post_response resp := by
    simp [LinkedInService.create_post, hat1, hat2]
  rw [hw, hg, hsl, hm, hc]
  exact ⟨⟨process_composio_response_success resp _ _,
          process_composio_response_error resp _ _⟩,
        ⟨process_composio_response_success resp _ _,
          process_composio_response_error resp _ _⟩,
        ⟨process_composio_response_success resp _ _,
          process_composio_response_error resp _ _⟩,
        ⟨process_linkedin_response_success resp _ _,
          process_linkedin_response_error resp _ _⟩,
        ⟨LinkedInService.process_create_post_response_success resp,
          LinkedInService.process_create_post_response_error resp⟩⟩

/-- C4 witness: an attribute-style `success` flag is accepted by the WhatsApp
send. -/
theorem C4_success_checklist_witness :
    (WhatsAppService.send_text_to_whatsapp
        (fun _ _ => .ok (.pyObj [("success", .pyBool true)]))
        "hi" "15551234567" none "default").1.success =
      composio_success_indicator (.pyObj [("success", .pyBool true)]) :=
  (C4_success_checklist (.pyObj [("success", .pyBool true)]) 0 (fun _ => none)
    "hi" "15551234567" "C1" "xoxb-tok" "to@example.com" "Subject" "Body"
    "pid" "tok-1" "default" none none
    (by decide) (by decide) (by decide) (by decide) (by decide)).1.1
